import Mathlib

/-! Embedding and properties of the getaddrinfo_a + signalfd example.

A shallow embedding of `getaddrinfo_a+signalfd.c`.  The program is single
threaded; every call into the C library or the kernel whose result the program
cannot determine (`malloc`, `getaddrinfo_a`, `gai_error`, `getnameinfo`,
`read`, `select`) is an input of the embedding.  `exit` and `abort` do not
return: they are recorded in `State.status`, and no statement of the program
runs after the status has left `running`.
-/

namespace GetaddrinfoA

/-! ## Constants of the system headers (Linux, glibc, LP64) -/

/-- The errno value `EINTR` of `<errno.h>`. -/
def EINTR : Int := 4

/-- The errno value `EAGAIN` of `<errno.h>`. -/
def EAGAIN : Int := 11

/-- The errno value `EWOULDBLOCK` of `<errno.h>` (the same number as `EAGAIN` on Linux). -/
def EWOULDBLOCK : Int := 11

/-- The status `EAI_INPROGRESS` of `<netdb.h>`. -/
def EAI_INPROGRESS : Int := -100

/-- The signal code `SI_ASYNCNL` of `<signal.h>`. -/
def SI_ASYNCNL : Int := -60

/-- The socket type `SOCK_STREAM`. -/
def SOCK_STREAM : Int := 1

/-- The protocol number `IPPROTO_TCP`. -/
def IPPROTO_TCP : Int := 6

/-- The flag `AI_ADDRCONFIG` of `<netdb.h>`. -/
def AI_ADDRCONFIG : Int := 32

/-- The value of `sizeof(struct signalfd_siginfo)`. -/
def sizeof_ssi : Int := 128

/-- The number of values of `size_t` (and of a pointer): `SIZE_MAX + 1`. -/
def SIZE_MOD : Nat := 2 ^ 64

/-! ## Data model -/

/-- A socket address (`struct sockaddr`), as raw content. -/
structure Sockaddr where
  sa_family : Nat
  sa_data : List Nat
deriving DecidableEq, Repr

/-- The fields of `struct addrinfo` the program touches.  A linked list of
`struct addrinfo` (through `ai_next`) is a `List Addrinfo`; `NULL` is `[]`. -/
structure Addrinfo where
  ai_flags : Int
  ai_socktype : Int
  ai_protocol : Int
  ai_addr : Sockaddr
deriving DecidableEq, Repr

/-- The value of `(struct addrinfo){}`. -/
def Addrinfo.zero : Addrinfo := ⟨0, 0, 0, ⟨0, []⟩⟩

/-- A request (`struct gaicb`, at the head of the block that `send_request`
allocates).  `addr` is the address of the block; `gai_return` is the field
that `gai_error` reads. -/
structure Gaicb where
  addr : Nat
  ar_name : String
  ar_service : Option String
  ar_request : Addrinfo
  ar_result : List Addrinfo
  gai_return : Int
deriving DecidableEq, Repr

/-- The library call `gai_error(req)`: the status of the request. -/
def gai_error (req : Gaicb) : Int := req.gai_return

/-- The pure functions of the C library that the program calls. `getnameinfo`
is the call with `NI_NUMERICHOST` and no service buffer: its return value and
the content of the `host` buffer. `assert_fail` is the text that a failed
`assert` prints for the given expression. -/
structure Libc where
  gai_strerror : Int → String
  strerror : Int → String
  getnameinfo : Sockaddr → Int × String
  assert_fail : String → String

/-- Whether the process is still running, has called `exit` (or returned from
`main`), or has called `abort`. -/
inductive Status where
  | running
  | exited (code : Int)
  | aborted
deriving DecidableEq, Repr

/-- The state of the process. `heap` holds the request blocks that `malloc`
returned and `free` has not yet taken back. `freeaddrinfo_log` and
`dispatched` record, in order, the arguments of the calls of `freeaddrinfo`
and of `handle_response`. -/
structure State where
  reqs_pending : Nat
  stdout : String
  stderr : String
  heap : List Gaicb
  freeaddrinfo_log : List (List Addrinfo)
  dispatched : List Gaicb
  status : Status
deriving DecidableEq, Repr

/-- The state at the start of `main`: `reqs_pending = 0`, nothing written. -/
def State.init : State := ⟨0, "", "", [], [], [], .running⟩

/-- The addresses of the blocks in the heap. -/
def State.addrs (s : State) : List Nat := s.heap.map Gaicb.addr

/-- The library call `free(p)`. -/
def free (p : Nat) (heap : List Gaicb) : List Gaicb :=
  heap.filter (fun g => decide (g.addr ≠ p))

/-! ## The functions of the program -/

/-- The function `send_request`. `p` is the address that `malloc` returns and
`getaddrinfo_a` is the value that the call of `getaddrinfo_a` returns. -/
def send_request (p : Nat) (getaddrinfo_a : Int) (node : String) (service : Option String)
    (socktype protocol flags : Int) (s : State) : Int × State :=
  let hints : Addrinfo :=
    { Addrinfo.zero with ai_socktype := socktype, ai_protocol := protocol, ai_flags := flags }
  let req : Gaicb :=
    { addr := p, ar_name := node, ar_service := service, ar_request := hints,
      ar_result := [], gai_return := 0 }
  let s1 : State := { s with heap := req :: s.heap }
  let ret := getaddrinfo_a
  if ret = 0 then
    (ret, { s1 with reqs_pending := (s1.reqs_pending + 1) % SIZE_MOD })
  else
    (ret, s1)

/-- The `do ... while` loop of `handle_response` (lines 98 to 106), entered
with `ai` at the head of the given list. -/
def convert_loop (L : Libc) : List Addrinfo → State → State
  | [], s => s
  | ai :: next, s =>
    if (L.getnameinfo ai.ai_addr).1 = 0 then
      convert_loop L next { s with stdout := s.stdout ++ " " ++ (L.getnameinfo ai.ai_addr).2 }
    else
      { s with
        stderr := s.stderr ++ "could not convert response from getaddrinfo_a to string\n",
        status := .aborted }

/-- The code of `handle_response` from the label `Done` on. -/
def handle_response_done (req : Gaicb) (s : State) : State :=
  let s1 : State := { s with heap := free req.addr s.heap }
  let s2 : State := { s1 with reqs_pending := (s1.reqs_pending + SIZE_MOD - 1) % SIZE_MOD }
  if s2.reqs_pending = 0 then { s2 with status := .exited 0 } else s2

/-- The function `handle_response`. -/
def handle_response (L : Libc) (req : Gaicb) (s0 : State) : State :=
  let s : State := { s0 with dispatched := s0.dispatched ++ [req] }
  let ret := gai_error req
  if ret ≠ 0 then
    if ret = EAI_INPROGRESS then s
    else
      handle_response_done req
        { s with stderr := s.stderr ++ "getaddrinfo_a failed:" ++ L.gai_strerror ret ++ "\n" }
  else
    match req.ar_result with
    | [] =>
      { s with
        stderr := s.stderr ++ L.assert_fail "req->ar_result != NULL",
        status := .aborted }
    | ai :: next =>
      let s1 : State := { s with stdout := s.stdout ++ req.ar_name ++ ":" }
      let s2 := convert_loop L (ai :: next) s1
      if s2.status = .running then
        let s3 : State := { s2 with stdout := s2.stdout ++ "\n" }
        let s4 : State := { s3 with freeaddrinfo_log := s3.freeaddrinfo_log ++ [req.ar_result] }
        handle_response_done req s4
      else s2

/-- The part of `struct signalfd_siginfo` that the program reads. `ssi_ptr`
is given as the request it points to, in the condition the resolver left it. -/
structure signalfd_siginfo where
  ssi_code : Int
  ssi_ptr : Gaicb
deriving DecidableEq, Repr

/-- What one call `read(sfd, &ssi, sizeof(ssi))` yields: the return value, the
value of `errno` and the content of `ssi`. -/
structure ReadRet where
  rret : Int
  errno : Int
  ssi : signalfd_siginfo
deriving DecidableEq, Repr

/-- The function `handle_sigs_via_fd`. The list holds what the coming calls of
`read` yield; on the empty list the descriptor, which is non-blocking, has
nothing to deliver and `read` fails with `EAGAIN`. Returns the state and what
is left to read. -/
def handle_sigs_via_fd (L : Libc) : List ReadRet → State → State × List ReadRet
  | [], s => (s, [])
  | r :: rest, s =>
    if r.rret = -1 ∧ r.errno = EINTR then
      handle_sigs_via_fd L rest s
    else if r.rret = -1 then
      if r.errno = EAGAIN ∨ r.errno = EWOULDBLOCK then (s, rest)
      else
        ({ s with
           stderr := s.stderr ++ "failed to read signalfd: " ++ L.strerror r.errno ++ "\n",
           status := .aborted }, rest)
    else if r.rret ≠ sizeof_ssi then
      ({ s with
         stderr := s.stderr ++ "unexpected number of bytes read from signalfd ("
           ++ toString r.rret ++ ")\n",
         status := .aborted }, rest)
    else if r.ssi.ssi_code = SI_ASYNCNL then
      let s1 := handle_response L r.ssi.ssi_ptr s
      if s1.status = .running then handle_sigs_via_fd L rest s1 else (s1, rest)
    else
      ({ s with
         stderr := s.stderr ++ "received signal with unexpected si_code:"
           ++ toString r.ssi.ssi_code ++ "\n",
         status := .aborted }, rest)

/-- The `for` loop of `main` (lines 164 and 165), from index `i` on: one call
of `send_request` per remaining argument, its return value discarded.
`malloc i` and `getaddrinfo_a i` are what the two library calls return in the
call for `argv[i]`. -/
def submit_loop (malloc : Nat → Nat) (getaddrinfo_a : Nat → Int) :
    Nat → List String → State → State
  | _, [], s => s
  | i, arg :: args, s =>
    submit_loop malloc getaddrinfo_a (i + 1) args
      (send_request (malloc i) (getaddrinfo_a i) arg none SOCK_STREAM IPPROTO_TCP AI_ADDRCONFIG s).2

/-- One return of `select` in the loop of `main`: its return value, whether
the descriptor is set in `rfds`, and the reads that have become available on
the descriptor since the previous return. -/
structure Wake where
  select_ret : Int
  fd_isset : Bool
  arrivals : List ReadRet
deriving DecidableEq, Repr

/-- The `while (1)` loop of `main`. `chan` is what is left to read on the
descriptor. When the list of wake-ups is used up, `select` never returns
again and the process stays blocked: the state is returned as it is. -/
def main_loop (L : Libc) : List Wake → List ReadRet → State → State
  | [], _, s => s
  | w :: ws, chan, s =>
    if w.select_ret > 0 ∧ w.fd_isset = true then
      let r := handle_sigs_via_fd L (chan ++ w.arrivals) s
      if r.1.status = .running then main_loop L ws r.2 r.1 else r.1
    else
      main_loop L ws (chan ++ w.arrivals) s

/-- The function `main`, for `argc = args.length + 1` and
`argv = argv0 :: args`. The descriptor that `setup_signalfd` returns is the
one that the wake-ups and the reads refer to. -/
def main (L : Libc) (malloc : Nat → Nat) (getaddrinfo_a : Nat → Int)
    (argv0 : String) (args : List String) (wakes : List Wake) : State :=
  let s := State.init
  if args.length + 1 = 1 then
    { s with stderr := s.stderr ++ "Usage: " ++ argv0 ++ " host1 host2 ...\n",
             status := .exited 1 }
  else
    main_loop L wakes [] (submit_loop malloc getaddrinfo_a 1 args s)

/-! ## The program and the resolver as a transition system -/

/-- What can happen to the process between two steps of its own: a call of
`send_request` (with the address that `malloc` returns, the return value of
`getaddrinfo_a` and the arguments of the call), or the delivery of the
notification for a request, which makes the process call `handle_response`
on the request as the resolver left it. -/
inductive Event where
  | submit (p : Nat) (getaddrinfo_a : Int) (node : String) (service : Option String)
      (socktype protocol flags : Int)
  | complete (req : Gaicb)
deriving DecidableEq, Repr

/-- The process together with the requests that are outstanding: `live` holds
the addresses of the requests that `getaddrinfo_a` has accepted (returned 0
for) and that `handle_response` has not yet released. -/
structure Sys where
  st : State
  live : List Nat
deriving DecidableEq, Repr

/-- The initial configuration: the initial state, nothing outstanding. -/
def Sys.init : Sys := ⟨State.init, []⟩

/-- One step. A submission needs a running process and a `malloc` that
returns a non-null pointer to a block that is not allocated yet; the request
becomes outstanding when `getaddrinfo_a` returns 0. A completion needs a
running process and an outstanding request; the request stops being
outstanding when `handle_response` has freed it. -/
def Sys.step (L : Libc) (e : Event) (σ : Sys) : Option Sys :=
  match e with
  | .submit p ga node service socktype protocol flags =>
    if σ.st.status = .running ∧ 0 < p ∧ p < SIZE_MOD ∧ p ∉ σ.st.addrs then
      some ⟨(send_request p ga node service socktype protocol flags σ.st).2,
        if (send_request p ga node service socktype protocol flags σ.st).1 = 0
          then p :: σ.live else σ.live⟩
    else none
  | .complete req =>
    if σ.st.status = .running ∧ req.addr ∈ σ.live then
      some ⟨handle_response L req σ.st,
        if req.addr ∈ (handle_response L req σ.st).addrs then σ.live
          else σ.live.erase req.addr⟩
    else none

/-- The text that the loop prints for the converted addresses: each one after
a single space. -/
def address_fields : List String → String
  | [] => ""
  | h :: t => " " ++ h ++ address_fields t

/-- The number of arguments, from `argv[i]` on, whose submission is accepted
(`getaddrinfo_a` returns 0). -/
def accepted (getaddrinfo_a : Nat → Int) : Nat → List String → Nat
  | _, [] => 0
  | i, _ :: args => (if getaddrinfo_a i = 0 then 1 else 0) + accepted getaddrinfo_a (i + 1) args

/-! ## Sample inputs -/

/-- A sample C library: the messages of glibc for the codes used below, and a
`getnameinfo` that converts the addresses of family `AF_INET` (2) with four
bytes of data. -/
def sample_libc : Libc :=
  { gai_strerror := fun e =>
      if e = -2 then "Name or service not known"
      else if e = -3 then "Temporary failure in name resolution"
      else "Unknown error",
    strerror := fun e => if e = 5 then "Input/output error" else "Unknown error",
    getnameinfo := fun a =>
      match a.sa_family, a.sa_data with
      | 2, [b1, b2, b3, b4] =>
        (0, toString b1 ++ "." ++ toString b2 ++ "." ++ toString b3 ++ "." ++ toString b4)
      | _, _ => (-6, ""),
    assert_fail := fun e => "Assertion " ++ e ++ " failed.\n" }

/-- A sample address: 127.0.0.1. -/
def sample_addr : Addrinfo := ⟨0, 1, 6, ⟨2, [127, 0, 0, 1]⟩⟩

/-- A sample address: 10.0.0.2. -/
def sample_addr2 : Addrinfo := ⟨0, 1, 6, ⟨2, [10, 0, 0, 2]⟩⟩

/-- A sample request at address 4096 for the host `x.invalid`, with the given
status and result list. -/
def sample_req (status : Int) (result : List Addrinfo) : Gaicb :=
  ⟨4096, "x.invalid", none, ⟨32, 1, 6, ⟨0, []⟩⟩, result, status⟩

/-- A sample state: the request at 4096 is allocated and `reqs_pending = c`. -/
def sample_state (c : Nat) : State :=
  ⟨c, "", "", [sample_req 0 []], [], [], .running⟩

/-- A sample read: a complete record with code `SI_ASYNCNL` for the given request. -/
def sample_record (req : Gaicb) : ReadRet := ⟨128, 0, ⟨-60, req⟩⟩

theorem convert_loop_frame (L : Libc) (l : List Addrinfo) (s : State) :
    (convert_loop L l s).reqs_pending = s.reqs_pending ∧
    (convert_loop L l s).heap = s.heap ∧
    (convert_loop L l s).freeaddrinfo_log = s.freeaddrinfo_log ∧
    (convert_loop L l s).dispatched = s.dispatched := by
  induction l generalizing s with
  | nil => simp [convert_loop]
  | cons ai next ih =>
    unfold convert_loop
    split
    · have := ih { s with stdout := s.stdout ++ " " ++ (L.getnameinfo ai.ai_addr).2 }
      simpa using this
    · simp

theorem convert_loop_ok (L : Libc) (l : List Addrinfo) (s : State)
    (h : ∀ ai ∈ l, (L.getnameinfo ai.ai_addr).1 = 0) :
    convert_loop L l s =
      { s with stdout := s.stdout ++
          address_fields (l.map (fun ai => (L.getnameinfo ai.ai_addr).2)) } := by
  induction l generalizing s with
  | nil => simp [convert_loop, address_fields]
  | cons ai next ih =>
    have h0 : (L.getnameinfo ai.ai_addr).1 = 0 := h ai (List.mem_cons_self _ _)
    have hn : ∀ a ∈ next, (L.getnameinfo a.ai_addr).1 = 0 :=
      fun a ha => h a (List.mem_cons_of_mem _ ha)
    unfold convert_loop
    rw [if_pos h0, ih _ hn]
    simp [address_fields, String.append_assoc]

theorem convert_loop_fail (L : Libc) (l : List Addrinfo) (s : State)
    (h : ∃ ai ∈ l, (L.getnameinfo ai.ai_addr).1 ≠ 0) :
    (convert_loop L l s).status = .aborted := by
  induction l generalizing s with
  | nil => simp at h
  | cons ai next ih =>
    unfold convert_loop
    split
    · rename_i h0
      obtain ⟨a, ha, hne⟩ := h
      rcases List.mem_cons.mp ha with rfl | ha
      · exact absurd h0 hne
      · exact ih _ ⟨a, ha, hne⟩
    · rfl

theorem size_dec (c : Nat) (h1 : 1 ≤ c) (h2 : c < SIZE_MOD) :
    (c + SIZE_MOD - 1) % SIZE_MOD = c - 1 := by
  unfold SIZE_MOD at *
  omega

theorem handle_response_done_spec (req : Gaicb) (s : State)
    (h1 : 1 ≤ s.reqs_pending) (h2 : s.reqs_pending < SIZE_MOD) :
    handle_response_done req s =
      { s with heap := free req.addr s.heap, reqs_pending := s.reqs_pending - 1,
               status := if s.reqs_pending - 1 = 0 then .exited 0 else s.status } := by
  unfold handle_response_done
  simp only [size_dec _ h1 h2]
  split <;> rfl

theorem handle_response_done_frame (req : Gaicb) (t : State) :
    (handle_response_done req t).heap = free req.addr t.heap ∧
    (handle_response_done req t).stdout = t.stdout ∧
    (handle_response_done req t).stderr = t.stderr ∧
    (handle_response_done req t).freeaddrinfo_log = t.freeaddrinfo_log ∧
    (handle_response_done req t).dispatched = t.dispatched := by
  by_cases h : (t.reqs_pending + SIZE_MOD - 1) % SIZE_MOD = 0
  · simp only [handle_response_done, h, if_true, and_self]
  · simp only [handle_response_done, h, if_false, and_self]

theorem not_mem_addrs_free (p : Nat) (h : List Gaicb) : p ∉ (free p h).map Gaicb.addr := by
  intro hm
  obtain ⟨g, hg, hga⟩ := List.mem_map.mp hm
  simp [free, List.mem_filter] at hg
  exact hg.2 hga

theorem handle_response_inprogress (L : Libc) (req : Gaicb) (s : State)
    (hp : gai_error req = EAI_INPROGRESS) :
    handle_response L req s = { s with dispatched := s.dispatched ++ [req] } := by
  have hne : gai_error req ≠ 0 := by rw [hp]; decide
  unfold handle_response
  dsimp only
  rw [if_pos hne, if_pos hp]

theorem handle_response_failed (L : Libc) (req : Gaicb) (s : State)
    (hne : gai_error req ≠ 0) (hnp : gai_error req ≠ EAI_INPROGRESS) :
    handle_response L req s =
      handle_response_done req
        { s with dispatched := s.dispatched ++ [req],
                 stderr := s.stderr ++ "getaddrinfo_a failed:"
                   ++ L.gai_strerror (gai_error req) ++ "\n" } := by
  unfold handle_response
  dsimp only
  rw [if_pos hne, if_neg hnp]

theorem handle_response_null (L : Libc) (req : Gaicb) (s : State)
    (h0 : gai_error req = 0) (hnil : req.ar_result = []) :
    handle_response L req s =
      { s with dispatched := s.dispatched ++ [req],
               stderr := s.stderr ++ L.assert_fail "req->ar_result != NULL",
               status := .aborted } := by
  unfold handle_response
  dsimp only
  rw [if_neg (not_not.mpr h0), hnil]

theorem handle_response_success (L : Libc) (req : Gaicb) (s : State)
    (h0 : gai_error req = 0) (hres : req.ar_result ≠ []) :
    handle_response L req s =
      if (convert_loop L req.ar_result
            { s with dispatched := s.dispatched ++ [req],
                     stdout := s.stdout ++ req.ar_name ++ ":" }).status = .running then
        handle_response_done req
          { convert_loop L req.ar_result
              { s with dispatched := s.dispatched ++ [req],
                       stdout := s.stdout ++ req.ar_name ++ ":" } with
            stdout := (convert_loop L req.ar_result
              { s with dispatched := s.dispatched ++ [req],
                       stdout := s.stdout ++ req.ar_name ++ ":" }).stdout ++ "\n",
            freeaddrinfo_log := (convert_loop L req.ar_result
              { s with dispatched := s.dispatched ++ [req],
                       stdout := s.stdout ++ req.ar_name ++ ":" }).freeaddrinfo_log
              ++ [req.ar_result] }
      else
        convert_loop L req.ar_result
          { s with dispatched := s.dispatched ++ [req],
                   stdout := s.stdout ++ req.ar_name ++ ":" } := by
  obtain ⟨ai, next, hl⟩ := List.exists_cons_of_ne_nil hres
  unfold handle_response
  dsimp only
  rw [if_neg (not_not.mpr h0), hl]

/-! ## The contract of `handle_response` -/

/-- C1 (fails as stated): the request `sample_req 0 []` has the terminal
status success, the counter is 1, and `handle_response` neither releases the
request nor decrements the counter nor exits: the assertion on `ar_result`
fails and the process aborts. -/
theorem handle_response_terminal_not_released :
    gai_error (sample_req 0 []) = 0 ∧
    gai_error (sample_req 0 []) ≠ EAI_INPROGRESS ∧
    (sample_state 1).reqs_pending = 1 ∧
    (handle_response sample_libc (sample_req 0 []) (sample_state 1)).reqs_pending ≠ 1 - 1 ∧
    (handle_response sample_libc (sample_req 0 []) (sample_state 1)).heap
      = (sample_state 1).heap ∧
    (handle_response sample_libc (sample_req 0 []) (sample_state 1)).status ≠ .exited 0 := by
  decide

/-- C1 (amended): for a running state with counter `c`, `1 ≤ c < 2^64`:
if the status is in progress, `handle_response` returns with the counter still
`c`, the heap untouched and nothing written; if the status is a failure, or
success with a non-empty result list whose addresses all convert, the request
(and on success its result list) is released, the counter becomes `c - 1`, and
the process exits with status 0 exactly when `c - 1 = 0` and keeps running
otherwise; if the status is success and the result list is empty or holds an
address that does not convert, the process aborts with the counter still `c`
and the request not freed. -/
theorem handle_response_contract (L : Libc) (req : Gaicb) (s : State) (c : Nat)
    (hc : s.reqs_pending = c) (h1 : 1 ≤ c) (h2 : c < SIZE_MOD) (hrun : s.status = .running) :
    (gai_error req = EAI_INPROGRESS →
      (handle_response L req s).reqs_pending = c ∧
      (handle_response L req s).heap = s.heap ∧
      (handle_response L req s).freeaddrinfo_log = s.freeaddrinfo_log ∧
      (handle_response L req s).stdout = s.stdout ∧
      (handle_response L req s).stderr = s.stderr ∧
      (handle_response L req s).status = .running) ∧
    ((gai_error req ≠ 0 ∧ gai_error req ≠ EAI_INPROGRESS) ∨
      (gai_error req = 0 ∧ req.ar_result ≠ [] ∧
        ∀ ai ∈ req.ar_result, (L.getnameinfo ai.ai_addr).1 = 0) →
      (handle_response L req s).heap = free req.addr s.heap ∧
      req.addr ∉ (handle_response L req s).addrs ∧
      (handle_response L req s).freeaddrinfo_log =
        (if gai_error req = 0 then s.freeaddrinfo_log ++ [req.ar_result]
         else s.freeaddrinfo_log) ∧
      (handle_response L req s).reqs_pending = c - 1 ∧
      ((handle_response L req s).status = .exited 0 ↔ c - 1 = 0) ∧
      ((handle_response L req s).status = .running ↔ c - 1 ≠ 0)) ∧
    (gai_error req = 0 ∧
      (req.ar_result = [] ∨ ∃ ai ∈ req.ar_result, (L.getnameinfo ai.ai_addr).1 ≠ 0) →
      (handle_response L req s).status = .aborted ∧
      (handle_response L req s).reqs_pending = c ∧
      (handle_response L req s).heap = s.heap ∧
      (handle_response L req s).freeaddrinfo_log = s.freeaddrinfo_log) := by
  subst hc
  have hfree : ∀ h : List Gaicb, req.addr ∉ (free req.addr h).map Gaicb.addr := by
    intro h hm
    obtain ⟨g, hg, hga⟩ := List.mem_map.mp hm
    simp [free, List.mem_filter] at hg
    exact hg.2 hga
  have hd : ∀ t : State, t.reqs_pending = s.reqs_pending →
      handle_response_done req t =
        { t with heap := free req.addr t.heap, reqs_pending := t.reqs_pending - 1,
                 status := if t.reqs_pending - 1 = 0 then .exited 0 else t.status } :=
    fun t e => handle_response_done_spec req t (e ▸ h1) (e ▸ h2)
  refine ⟨?_, ?_, ?_⟩
  · intro hp
    rw [handle_response_inprogress L req s hp]
    exact ⟨rfl, rfl, rfl, rfl, rfl, hrun⟩
  · rintro (⟨hne, hnp⟩ | ⟨h0, hres, hall⟩)
    · rw [handle_response_failed L req s hne hnp, hd]
      · simp only [State.addrs, hrun, if_neg hne]
        refine ⟨trivial, hfree _, trivial, trivial, ?_, ?_⟩
        · by_cases hz : s.reqs_pending - 1 = 0 <;> simp [hz]
        · by_cases hz : s.reqs_pending - 1 = 0 <;> simp [hz]
      · rfl
    · rw [handle_response_success L req s h0 hres, convert_loop_ok L _ _ hall]
      simp only [hrun, if_true]
      rw [hd]
      · simp only [State.addrs, hrun, if_pos h0]
        refine ⟨trivial, hfree _, trivial, trivial, ?_, ?_⟩
        · by_cases hz : s.reqs_pending - 1 = 0 <;> simp [hz]
        · by_cases hz : s.reqs_pending - 1 = 0 <;> simp [hz]
      · rfl
  · rintro ⟨h0, hbad⟩
    rcases hbad with hnil | hex
    · rw [handle_response_null L req s h0 hnil]
      exact ⟨rfl, rfl, rfl, rfl⟩
    · have hres : req.ar_result ≠ [] := by
        obtain ⟨ai, hai, _⟩ := hex
        exact List.ne_nil_of_mem hai
      have hab := convert_loop_fail L req.ar_result
        { s with dispatched := s.dispatched ++ [req], stdout := s.stdout ++ req.ar_name ++ ":" } hex
      have hfr := convert_loop_frame L req.ar_result
        { s with dispatched := s.dispatched ++ [req], stdout := s.stdout ++ req.ar_name ++ ":" }
      rw [handle_response_success L req s h0 hres, hab, if_neg (by decide)]
      exact ⟨hab, hfr.1, hfr.2.1, hfr.2.2.1⟩

/-- Witness for `handle_response_contract`: a failed lookup with counter 1. -/
theorem handle_response_contract_witness :
    (handle_response sample_libc (sample_req (-2) []) (sample_state 1)).reqs_pending = 1 - 1 ∧
    ((handle_response sample_libc (sample_req (-2) []) (sample_state 1)).status = .exited 0
      ↔ 1 - 1 = 0) :=
  have h := (handle_response_contract sample_libc (sample_req (-2) []) (sample_state 1) 1
    rfl (by decide) (by decide) rfl).2.1 (Or.inl ⟨by decide, by decide⟩)
  ⟨h.2.2.2.1, h.2.2.2.2.1⟩

theorem address_fields_data (ss : List String) (pre : List Char) :
    pre ++ (address_fields ss).data =
      List.intercalate [' '] (pre :: ss.map String.data) := by
  induction ss generalizing pre with
  | nil => simp [address_fields, List.intercalate]
  | cons h t ih =>
    have step : pre ++ (address_fields (h :: t)).data
        = pre ++ ' ' :: (h.data ++ (address_fields t).data) := by
      simp [address_fields]
    rw [step, ih h.data]
    simp [List.intercalate, List.intersperse]

/-- C9 (fails as stated): for the successful request `sample_req 0 []`, whose
result list is `NULL`, `handle_response` aborts on the failed assertion without
printing the hostname line, releasing the request or decrementing the
counter. -/
theorem handle_response_null_result_aborts :
    gai_error (sample_req 0 []) = 0 ∧ (sample_req 0 []).ar_result = [] ∧
    (handle_response sample_libc (sample_req 0 []) (sample_state 2)).status = .aborted ∧
    (handle_response sample_libc (sample_req 0 []) (sample_state 2)).stdout = "" ∧
    (handle_response sample_libc (sample_req 0 []) (sample_state 2)).heap
      = (sample_state 2).heap ∧
    (handle_response sample_libc (sample_req 0 []) (sample_state 2)).reqs_pending = 2 := by
  decide

/-- C9 (amended): for every request whose status is success and whose result
list is empty (`ar_result` is `NULL`), the assertion `req->ar_result != NULL`
fails: `handle_response` writes the assertion message to standard error and
aborts, with nothing written to standard output, the request not released,
`freeaddrinfo` not called and the counter not decremented. -/
theorem handle_response_null_result (L : Libc) (req : Gaicb) (s : State)
    (h0 : gai_error req = 0) (hnil : req.ar_result = []) :
    (handle_response L req s).status = .aborted ∧
    (handle_response L req s).stderr = s.stderr ++ L.assert_fail "req->ar_result != NULL" ∧
    (handle_response L req s).stdout = s.stdout ∧
    (handle_response L req s).heap = s.heap ∧
    (handle_response L req s).freeaddrinfo_log = s.freeaddrinfo_log ∧
    (handle_response L req s).reqs_pending = s.reqs_pending := by
  rw [handle_response_null L req s h0 hnil]
  exact ⟨rfl, rfl, rfl, rfl, rfl, rfl⟩

/-- Witness for `handle_response_null_result`. -/
theorem handle_response_null_result_witness :
    (handle_response sample_libc (sample_req 0 []) (sample_state 3)).status = .aborted ∧
    (handle_response sample_libc (sample_req 0 []) (sample_state 3)).reqs_pending = 3 :=
  have h := handle_response_null_result sample_libc (sample_req 0 []) (sample_state 3) rfl rfl
  ⟨h.1, h.2.2.2.2.2⟩

/-- C8 (fails as stated): for the request for `x.invalid` that failed with
`EAI_NONAME` (-2), what `handle_response` writes to standard error does not
contain the hostname. -/
theorem handle_response_failure_line_lacks_hostname :
    gai_error (sample_req (-2) []) ≠ 0 ∧ gai_error (sample_req (-2) []) ≠ EAI_INPROGRESS ∧
    (sample_req (-2) []).ar_name = "x.invalid" ∧
    (handle_response sample_libc (sample_req (-2) []) (sample_state 2)).stderr
      = "getaddrinfo_a failed:Name or service not known\n" ∧
    ¬ ("x.invalid".data <:+:
        (handle_response sample_libc (sample_req (-2) []) (sample_state 2)).stderr.data) := by
  refine ⟨by decide, by decide, rfl, by decide, ?_⟩
  intro h
  have hx : 'x' ∈ (handle_response sample_libc (sample_req (-2) [])
      (sample_state 2)).stderr.data := h.subset (by decide)
  revert hx
  decide

/-- C8 (amended): for every request whose resolution failed (status neither
success nor in progress), `handle_response` appends to standard error exactly
the line `getaddrinfo_a failed:` followed by the description of the failure
kind and a newline (the hostname is not part of it), writes nothing to
standard output, and then releases the request. -/
theorem handle_response_failure_line (L : Libc) (req : Gaicb) (s : State)
    (hne : gai_error req ≠ 0) (hnp : gai_error req ≠ EAI_INPROGRESS) :
    (handle_response L req s).stderr =
      s.stderr ++ "getaddrinfo_a failed:" ++ L.gai_strerror (gai_error req) ++ "\n" ∧
    (handle_response L req s).stdout = s.stdout ∧
    (handle_response L req s).heap = free req.addr s.heap ∧
    req.addr ∉ (handle_response L req s).addrs := by
  rw [handle_response_failed L req s hne hnp]
  have hf := handle_response_done_frame req
    { s with dispatched := s.dispatched ++ [req],
             stderr := s.stderr ++ "getaddrinfo_a failed:"
               ++ L.gai_strerror (gai_error req) ++ "\n" }
  refine ⟨hf.2.2.1, hf.2.1, hf.1, ?_⟩
  rw [State.addrs, hf.1]
  exact not_mem_addrs_free _ _

/-- Witness for `handle_response_failure_line`. -/
theorem handle_response_failure_line_witness :
    (handle_response sample_libc (sample_req (-3) []) (sample_state 2)).stderr =
      "" ++ "getaddrinfo_a failed:" ++ "Temporary failure in name resolution" ++ "\n" ∧
    (handle_response sample_libc (sample_req (-3) []) (sample_state 2)).stdout = "" :=
  have h := handle_response_failure_line sample_libc (sample_req (-3) []) (sample_state 2)
    (by decide) (by decide)
  ⟨h.1, h.2.1⟩

/-! ## The contract of `send_request` -/

/-- C6: in a running process, for every request with status success, hostname `h` and a non-empty
result list whose addresses all convert, to `s1, ..., sN` in this order,
`handle_response` appends to standard output exactly `h`, then `:`, then for
each `i` in order a space followed by `si`, then a newline. When neither `h`
nor any `si` contains a space, splitting the line (without its newline) at the
spaces gives `h:` followed by exactly the `N` tokens `s1, ..., sN`, in the
order of the result list. -/
theorem handle_response_output_line (L : Libc) (req : Gaicb) (s : State) (ss : List String)
    (hrun : s.status = .running) (h0 : gai_error req = 0) (hres : req.ar_result ≠ [])
    (hconv : req.ar_result.map (fun ai => L.getnameinfo ai.ai_addr)
      = ss.map (fun x => ((0 : Int), x))) :
    (handle_response L req s).stdout =
      s.stdout ++ (req.ar_name ++ ":" ++ address_fields ss ++ "\n") ∧
    ss.length = req.ar_result.length ∧
    ((' ' ∉ req.ar_name.data ∧ ∀ x ∈ ss, ' ' ∉ x.data) →
      (req.ar_name ++ ":" ++ address_fields ss).data.splitOn ' '
        = (req.ar_name ++ ":").data :: ss.map String.data ∧
      ((req.ar_name ++ ":" ++ address_fields ss).data.splitOn ' ').tail.length
        = req.ar_result.length) := by
  have hlen : ss.length = req.ar_result.length := by
    have := congrArg List.length hconv
    simpa using this.symm
  have hall : ∀ ai ∈ req.ar_result, (L.getnameinfo ai.ai_addr).1 = 0 := by
    intro ai hai
    have hm : L.getnameinfo ai.ai_addr ∈ ss.map (fun x => ((0 : Int), x)) := by
      rw [← hconv]; exact List.mem_map_of_mem _ hai
    obtain ⟨x, _, hx⟩ := List.mem_map.mp hm
    rw [← hx]
  have hsnd : req.ar_result.map (fun ai => (L.getnameinfo ai.ai_addr).2) = ss := by
    have := congrArg (List.map Prod.snd) hconv
    simpa [List.map_map, Function.comp_def] using this
  refine ⟨?_, hlen, ?_⟩
  · rw [handle_response_success L req s h0 hres, convert_loop_ok L _ _ hall, hsnd]
    split
    · rw [(handle_response_done_frame req _).2.1]
      simp [String.append_assoc]
    · rename_i hst
      exact absurd hrun hst
  · rintro ⟨hname, hss⟩
    have hsplit : (req.ar_name ++ ":" ++ address_fields ss).data.splitOn ' '
        = (req.ar_name ++ ":").data :: ss.map String.data := by
      rw [String.data_append, address_fields_data]
      apply List.splitOn_intercalate
      · intro l hl
        rcases List.mem_cons.mp hl with rfl | hl
        · intro hmem
          rw [String.data_append, List.mem_append] at hmem
          rcases hmem with hmem | hmem
          · exact hname hmem
          · revert hmem; decide
        · obtain ⟨x, hx, rfl⟩ := List.mem_map.mp hl
          exact hss x hx
      · simp
    refine ⟨hsplit, ?_⟩
    rw [hsplit]
    simp [hlen]

/-- Witness for `handle_response_output_line`: two addresses. -/
theorem handle_response_output_line_witness :
    (handle_response sample_libc (sample_req 0 [sample_addr, sample_addr2])
      (sample_state 2)).stdout = "" ++ ("x.invalid" ++ ":" ++
        address_fields ["127.0.0.1", "10.0.0.2"] ++ "\n") ∧
    ("x.invalid" ++ ":" ++ address_fields ["127.0.0.1", "10.0.0.2"]).data.splitOn ' '
      = ("x.invalid" ++ ":").data :: ["127.0.0.1", "10.0.0.2"].map String.data :=
  have h := handle_response_output_line sample_libc (sample_req 0 [sample_addr, sample_addr2])
    (sample_state 2) ["127.0.0.1", "10.0.0.2"] rfl rfl (by decide) (by decide)
  ⟨h.1, (h.2.2 ⟨by decide, by decide⟩).1⟩

/-! ## Lemmas on `handle_sigs_via_fd` -/

theorem handle_response_dispatched (L : Libc) (req : Gaicb) (s : State) :
    (handle_response L req s).dispatched = s.dispatched ++ [req] := by
  by_cases h0 : gai_error req = 0
  · by_cases hres : req.ar_result = []
    · rw [handle_response_null L req s h0 hres]
    · rw [handle_response_success L req s h0 hres]
      have hfr := convert_loop_frame L req.ar_result
        { s with dispatched := s.dispatched ++ [req], stdout := s.stdout ++ req.ar_name ++ ":" }
      split
      · rw [(handle_response_done_frame req _).2.2.2.2]
        exact hfr.2.2.2
      · exact hfr.2.2.2
  · by_cases hp : gai_error req = EAI_INPROGRESS
    · rw [handle_response_inprogress L req s hp]
    · rw [handle_response_failed L req s h0 hp, (handle_response_done_frame req _).2.2.2.2]

theorem sigs_eintr (L : Libc) (r : ReadRet) (rest : List ReadRet) (s : State)
    (h1 : r.rret = -1) (h2 : r.errno = EINTR) :
    handle_sigs_via_fd L (r :: rest) s = handle_sigs_via_fd L rest s := by
  rw [handle_sigs_via_fd, if_pos ⟨h1, h2⟩]

theorem sigs_eagain (L : Libc) (r : ReadRet) (rest : List ReadRet) (s : State)
    (h1 : r.rret = -1) (h2 : r.errno ≠ EINTR) (h3 : r.errno = EAGAIN ∨ r.errno = EWOULDBLOCK) :
    handle_sigs_via_fd L (r :: rest) s = (s, rest) := by
  rw [handle_sigs_via_fd, if_neg (fun h => h2 h.2), if_pos h1, if_pos h3]

theorem sigs_error (L : Libc) (r : ReadRet) (rest : List ReadRet) (s : State)
    (h1 : r.rret = -1) (h2 : r.errno ≠ EINTR) (h3 : ¬ (r.errno = EAGAIN ∨ r.errno = EWOULDBLOCK)) :
    handle_sigs_via_fd L (r :: rest) s =
      ({ s with
         stderr := s.stderr ++ "failed to read signalfd: " ++ L.strerror r.errno ++ "\n",
         status := .aborted }, rest) := by
  rw [handle_sigs_via_fd, if_neg (fun h => h2 h.2), if_pos h1, if_neg h3]

theorem sigs_short (L : Libc) (r : ReadRet) (rest : List ReadRet) (s : State)
    (h1 : r.rret ≠ -1) (h2 : r.rret ≠ sizeof_ssi) :
    handle_sigs_via_fd L (r :: rest) s =
      ({ s with
         stderr := s.stderr ++ "unexpected number of bytes read from signalfd ("
           ++ toString r.rret ++ ")\n",
         status := .aborted }, rest) := by
  rw [handle_sigs_via_fd, if_neg (fun h => h1 h.1), if_neg h1, if_pos h2]

theorem sigs_record (L : Libc) (r : ReadRet) (rest : List ReadRet) (s : State)
    (h1 : r.rret = sizeof_ssi) (h2 : r.ssi.ssi_code = SI_ASYNCNL) :
    handle_sigs_via_fd L (r :: rest) s =
      if (handle_response L r.ssi.ssi_ptr s).status = .running then
        handle_sigs_via_fd L rest (handle_response L r.ssi.ssi_ptr s)
      else (handle_response L r.ssi.ssi_ptr s, rest) := by
  have hn : r.rret ≠ -1 := by rw [h1]; decide
  rw [handle_sigs_via_fd, if_neg (fun h => hn h.1), if_neg hn, if_neg (not_not.mpr h1), if_pos h2]

theorem sigs_badcode (L : Libc) (r : ReadRet) (rest : List ReadRet) (s : State)
    (h1 : r.rret = sizeof_ssi) (h2 : r.ssi.ssi_code ≠ SI_ASYNCNL) :
    handle_sigs_via_fd L (r :: rest) s =
      ({ s with
         stderr := s.stderr ++ "received signal with unexpected si_code:"
           ++ toString r.ssi.ssi_code ++ "\n",
         status := .aborted }, rest) := by
  have hn : r.rret ≠ -1 := by rw [h1]; decide
  rw [handle_sigs_via_fd, if_neg (fun h => hn h.1), if_neg hn, if_neg (not_not.mpr h1), if_neg h2]

theorem sigs_dispatched_extends (L : Libc) (reads : List ReadRet) (s : State) :
    ∃ ext, (handle_sigs_via_fd L reads s).1.dispatched = s.dispatched ++ ext := by
  induction reads generalizing s with
  | nil => exact ⟨[], by simp [handle_sigs_via_fd]⟩
  | cons r rest ih =>
    by_cases h1 : r.rret = -1
    · by_cases h2 : r.errno = EINTR
      · rw [sigs_eintr L r rest s h1 h2]; exact ih s
      · by_cases h3 : r.errno = EAGAIN ∨ r.errno = EWOULDBLOCK
        · rw [sigs_eagain L r rest s h1 h2 h3]; exact ⟨[], by simp⟩
        · rw [sigs_error L r rest s h1 h2 h3]; exact ⟨[], by simp⟩
    · by_cases h2 : r.rret = sizeof_ssi
      · by_cases h3 : r.ssi.ssi_code = SI_ASYNCNL
        · rw [sigs_record L r rest s h2 h3]
          split
          · obtain ⟨ext, he⟩ := ih (handle_response L r.ssi.ssi_ptr s)
            refine ⟨r.ssi.ssi_ptr :: ext, ?_⟩
            rw [he, handle_response_dispatched]; simp
          · exact ⟨[r.ssi.ssi_ptr], handle_response_dispatched L _ s⟩
        · rw [sigs_badcode L r rest s h2 h3]; exact ⟨[], by simp⟩
      · rw [sigs_short L r rest s h1 h2]; exact ⟨[], by simp⟩

/-! ## Dispatch and draining in `handle_sigs_via_fd` -/

/-- C7: for the result `r` of a read in `handle_sigs_via_fd`: if `r` is a
record of the full size with code `SI_ASYNCNL`, its request is the next one
passed to `handle_response`; otherwise it is not passed (either the read was
interrupted and is repeated, or no call is made at all); a full record with
another code, a read of another byte count, and a read error other than
`EINTR`, `EAGAIN` and `EWOULDBLOCK` each change the state only by appending
their diagnostic to standard error and aborting: `handle_response` is not
called and `reqs_pending` keeps its value. -/
theorem handle_sigs_via_fd_dispatch (L : Libc) (r : ReadRet) (rest : List ReadRet) (s : State) :
    (r.rret = sizeof_ssi ∧ r.ssi.ssi_code = SI_ASYNCNL →
      ∃ ext, (handle_sigs_via_fd L (r :: rest) s).1.dispatched
        = s.dispatched ++ r.ssi.ssi_ptr :: ext) ∧
    (¬ (r.rret = sizeof_ssi ∧ r.ssi.ssi_code = SI_ASYNCNL) →
      ((r.rret = -1 ∧ r.errno = EINTR) ∧
        handle_sigs_via_fd L (r :: rest) s = handle_sigs_via_fd L rest s) ∨
      (handle_sigs_via_fd L (r :: rest) s).1.dispatched = s.dispatched) ∧
    (r.rret = sizeof_ssi ∧ r.ssi.ssi_code ≠ SI_ASYNCNL →
      handle_sigs_via_fd L (r :: rest) s =
        ({ s with
           stderr := s.stderr ++ "received signal with unexpected si_code:"
             ++ toString r.ssi.ssi_code ++ "\n",
           status := .aborted }, rest)) ∧
    (r.rret ≠ -1 ∧ r.rret ≠ sizeof_ssi →
      handle_sigs_via_fd L (r :: rest) s =
        ({ s with
           stderr := s.stderr ++ "unexpected number of bytes read from signalfd ("
             ++ toString r.rret ++ ")\n",
           status := .aborted }, rest)) ∧
    (r.rret = -1 ∧ r.errno ≠ EINTR ∧ r.errno ≠ EAGAIN ∧ r.errno ≠ EWOULDBLOCK →
      handle_sigs_via_fd L (r :: rest) s =
        ({ s with
           stderr := s.stderr ++ "failed to read signalfd: " ++ L.strerror r.errno ++ "\n",
           status := .aborted }, rest)) := by
  refine ⟨?_, ?_, ?_, ?_, ?_⟩
  · rintro ⟨h1, h2⟩
    rw [sigs_record L r rest s h1 h2]
    split
    · obtain ⟨ext, he⟩ := sigs_dispatched_extends L rest (handle_response L r.ssi.ssi_ptr s)
      refine ⟨ext, ?_⟩
      rw [he, handle_response_dispatched]; simp
    · exact ⟨[], handle_response_dispatched L _ s⟩
  · intro hn
    by_cases h1 : r.rret = -1
    · by_cases h2 : r.errno = EINTR
      · exact Or.inl ⟨⟨h1, h2⟩, sigs_eintr L r rest s h1 h2⟩
      · right
        by_cases h3 : r.errno = EAGAIN ∨ r.errno = EWOULDBLOCK
        · rw [sigs_eagain L r rest s h1 h2 h3]
        · rw [sigs_error L r rest s h1 h2 h3]
    · right
      by_cases h2 : r.rret = sizeof_ssi
      · rw [sigs_badcode L r rest s h2 (fun h3 => hn ⟨h2, h3⟩)]
      · rw [sigs_short L r rest s h1 h2]
  · rintro ⟨h1, h2⟩
    exact sigs_badcode L r rest s h1 h2
  · rintro ⟨h1, h2⟩
    exact sigs_short L r rest s h1 h2
  · rintro ⟨h1, h2, h3, h4⟩
    exact sigs_error L r rest s h1 h2 (fun h => h.elim h3 h4)

/-- Witness for `handle_sigs_via_fd_dispatch`: a record with the code 0
(`SI_USER`) aborts the process with a diagnostic and without a call of
`handle_response`. -/
theorem handle_sigs_via_fd_dispatch_witness :
    handle_sigs_via_fd sample_libc
        [⟨128, 0, ⟨0, sample_req 0 [sample_addr]⟩⟩, sample_record (sample_req 0 [sample_addr])]
        (sample_state 1) =
      ({ sample_state 1 with
         stderr := (sample_state 1).stderr ++ "received signal with unexpected si_code:"
           ++ toString (0 : Int) ++ "\n",
         status := .aborted }, [sample_record (sample_req 0 [sample_addr])]) :=
  (handle_sigs_via_fd_dispatch sample_libc ⟨128, 0, ⟨0, sample_req 0 [sample_addr]⟩⟩
    [sample_record (sample_req 0 [sample_addr])] (sample_state 1)).2.2.1 ⟨rfl, by decide⟩

theorem submit_loop_spec (malloc : Nat → Nat) (ga : Nat → Int) (i : Nat) (args : List String)
    (s : State) :
    (submit_loop malloc ga i args s).status = s.status ∧
    (submit_loop malloc ga i args s).stderr = s.stderr ∧
    (submit_loop malloc ga i args s).stdout = s.stdout ∧
    (submit_loop malloc ga i args s).dispatched = s.dispatched ∧
    (submit_loop malloc ga i args s).heap.reverse.map Gaicb.ar_name
      = s.heap.reverse.map Gaicb.ar_name ++ args ∧
    (submit_loop malloc ga i args s).reqs_pending % SIZE_MOD
      = (s.reqs_pending + accepted ga i args) % SIZE_MOD ∧
    (s.reqs_pending < SIZE_MOD → (submit_loop malloc ga i args s).reqs_pending < SIZE_MOD) := by
  induction args generalizing i s with
  | nil => simp [submit_loop, accepted]
  | cons arg args ih =>
    have hs : ∀ g : Int, (send_request (malloc i) g arg none SOCK_STREAM IPPROTO_TCP
          AI_ADDRCONFIG s).2.status = s.status ∧
        (send_request (malloc i) g arg none SOCK_STREAM IPPROTO_TCP
          AI_ADDRCONFIG s).2.stderr = s.stderr ∧
        (send_request (malloc i) g arg none SOCK_STREAM IPPROTO_TCP
          AI_ADDRCONFIG s).2.stdout = s.stdout ∧
        (send_request (malloc i) g arg none SOCK_STREAM IPPROTO_TCP
          AI_ADDRCONFIG s).2.dispatched = s.dispatched ∧
        (send_request (malloc i) g arg none SOCK_STREAM IPPROTO_TCP
          AI_ADDRCONFIG s).2.heap.reverse.map Gaicb.ar_name
          = s.heap.reverse.map Gaicb.ar_name ++ [arg] ∧
        (send_request (malloc i) g arg none SOCK_STREAM IPPROTO_TCP
          AI_ADDRCONFIG s).2.reqs_pending
          = if g = 0 then (s.reqs_pending + 1) % SIZE_MOD else s.reqs_pending := by
      intro g
      by_cases hg : g = 0
      · simp only [send_request, hg, if_true, List.reverse_cons, List.map_append, List.map_cons,
          List.map_nil, and_self]
      · simp only [send_request, hg, if_false, List.reverse_cons, List.map_append, List.map_cons,
          List.map_nil, and_self]
    obtain ⟨e1, e2, e3, e4, e5, e6⟩ := hs (ga i)
    obtain ⟨i1, i2, i3, i4, i5, i6, i7⟩ := ih (i + 1)
      (send_request (malloc i) (ga i) arg none SOCK_STREAM IPPROTO_TCP AI_ADDRCONFIG s).2
    have hpos : 0 < SIZE_MOD := by unfold SIZE_MOD; exact Nat.two_pow_pos 64
    refine ⟨?_, ?_, ?_, ?_, ?_, ?_, ?_⟩
    · rw [submit_loop, i1, e1]
    · rw [submit_loop, i2, e2]
    · rw [submit_loop, i3, e3]
    · rw [submit_loop, i4, e4]
    · rw [submit_loop, i5, e5]; simp
    · rw [submit_loop, i6, e6, accepted]
      by_cases hg : ga i = 0
      · rw [if_pos hg, if_pos hg, Nat.add_mod, Nat.mod_mod, ← Nat.add_mod]
        congr 1
        omega
      · rw [if_neg hg, if_neg hg]
        congr 1
        omega
    · intro hlt
      rw [submit_loop]
      apply i7
      rw [e6]
      by_cases hg : ga i = 0
      · rw [if_pos hg]; exact Nat.mod_lt _ hpos
      · rw [if_neg hg]; exact hlt

theorem accepted_none (ga : Nat → Int) (i : Nat) (args : List String)
    (hfail : ∀ k, ga k ≠ 0) : accepted ga i args = 0 := by
  induction args generalizing i with
  | nil => rfl
  | cons arg args ih => rw [accepted, if_neg (hfail i), ih]

theorem main_loop_idle (L : Libc) (wakes : List Wake) (s : State)
    (hrun : s.status = .running) (hidle : ∀ w ∈ wakes, w.arrivals = []) :
    main_loop L wakes [] s = s := by
  induction wakes with
  | nil => rfl
  | cons w ws ih =>
    have hw : w.arrivals = [] := hidle w (List.mem_cons_self _ _)
    have hws : ∀ x ∈ ws, x.arrivals = [] := fun x hx => hidle x (List.mem_cons_of_mem _ hx)
    rw [main_loop, hw]
    have hnil : ([] : List ReadRet) ++ [] = [] := rfl
    rw [hnil]
    have hsig : handle_sigs_via_fd L [] s = (s, []) := by rw [handle_sigs_via_fd]
    rw [hsig]
    by_cases hc : w.select_ret > 0 ∧ w.fd_isset = true
    · rw [if_pos hc]
      show (if s.status = .running then main_loop L ws [] s else s) = s
      rw [if_pos hrun]
      exact ih hws
    · rw [if_neg hc]
      exact ih hws

theorem main_eq (L : Libc) (malloc : Nat → Nat) (ga : Nat → Int) (argv0 : String)
    (args : List String) (wakes : List Wake) (hne : args ≠ []) :
    main L malloc ga argv0 args wakes
      = main_loop L wakes [] (submit_loop malloc ga 1 args State.init) := by
  have hlen : ¬ (args.length + 1 = 1) := by
    intro h
    exact hne (List.length_eq_zero.mp (Nat.succ.inj h))
  unfold main
  simp only [hlen, if_false]

/-- C3 (the code at the failing input): when `getaddrinfo_a` accepts none of
the submissions, so that no completion is ever delivered, `main` never calls
`exit`: however often `select` returns, the process is still running, with
`reqs_pending = 0` and `handle_response` never called. -/
theorem main_blocks_when_no_submission_accepted (L : Libc) (malloc : Nat → Nat)
    (ga : Nat → Int) (argv0 : String) (args : List String) (wakes : List Wake)
    (hne : args ≠ []) (hfail : ∀ k, ga k ≠ 0) (hidle : ∀ w ∈ wakes, w.arrivals = []) :
    (main L malloc ga argv0 args wakes).status = .running ∧
    (main L malloc ga argv0 args wakes).reqs_pending = 0 ∧
    (main L malloc ga argv0 args wakes).dispatched = [] := by
  obtain ⟨i1, _, _, i4, _, i6, i7⟩ := submit_loop_spec malloc ga 1 args State.init
  have hpos : 0 < SIZE_MOD := by unfold SIZE_MOD; exact Nat.two_pow_pos 64
  have hlt := i7 hpos
  rw [main_eq L malloc ga argv0 args wakes hne,
    main_loop_idle L wakes _ (i1.trans rfl) hidle]
  refine ⟨i1, ?_, i4⟩
  rw [← Nat.mod_eq_of_lt hlt, i6, accepted_none ga 1 args hfail]
  exact Nat.mod_eq_of_lt hpos

/-- Witness for `main_blocks_when_no_submission_accepted`: one hostname, the
submission fails with `EAI_AGAIN`, `select` returns twice. -/
theorem main_blocks_when_no_submission_accepted_witness :
    (main sample_libc (fun i => 4096 * i) (fun _ => -3) "a.out" ["x.invalid"]
      [⟨1, true, []⟩, ⟨-1, false, []⟩]).status = .running ∧
    (main sample_libc (fun i => 4096 * i) (fun _ => -3) "a.out" ["x.invalid"]
      [⟨1, true, []⟩, ⟨-1, false, []⟩]).reqs_pending = 0 :=
  have h := main_blocks_when_no_submission_accepted sample_libc (fun i => 4096 * i)
    (fun _ => -3) "a.out" ["x.invalid"] [⟨1, true, []⟩, ⟨-1, false, []⟩]
    (by decide) (fun _ => (by decide : (-3 : Int) ≠ 0)) (by decide)
  ⟨h.1, h.2.1⟩

end GetaddrinfoA
